import Mathlib

/-!
# linux_spi_transport_c : the `trans_spi` SPI transport

A shallow embedding of `libs/trans_spi/src/trans_spi.c` (with the types and status
codes of `libs/trans_spi/include/trans_spi.h`) and the properties of its
configuration / transfer core.

The C functions talk to the operating system (`open`, `close`, `ioctl`) and print
diagnostics.  The embedding passes an explicit `World` through every function:

* every system call is appended to `World.calls`, so that the number, the order and
  the arguments of the device accesses are observable;
* the value a system call reports is read from `World.oracle` at the index of the
  call, so that a statement quantified over all worlds covers every combination of
  outcomes;
* every `printf` is appended to `World.diag` (the formatted `errno` argument is not
  modelled).

Integers: `int32_t` and `int8_t` values are `Int`, `uint32_t` values and addresses
are `Nat`.  A conversion is written out wherever the C code converts between types of
different width or signedness.
-/

namespace TransSpi

/-! ## Status codes (`trans_spi.h`, lines 17-24) -/

def TRANS_SPI_NO_ERROR : Int := 0
def TRANS_SPI_BAD_ARGUMENT_ERROR : Int := -1
def TRANS_SPI_OPEN_ERROR : Int := -2
def TRANS_SPI_CLOSE_ERROR : Int := -3
def TRANS_SPI_CONFIG_ERROR : Int := -4
def TRANS_SPI_TRANSFER_ERROR : Int := -5
def TRANS_SPI_GET_MODE_ERROR : Int := -6
def TRANS_SPI_SET_MODE_ERROR : Int := -7

/-! ## Constants of the platform headers -/

/-- Modelled from the spec: `SPI_CPHA` of `linux/spi/spi.h` (not under src/), the clock
phase bit, bit 0 of the mode word. -/
def SPI_CPHA : Nat := 1

/-- Modelled from the spec: `SPI_CPOL` of `linux/spi/spi.h` (not under src/), the clock
polarity bit, bit 1 of the mode word. -/
def SPI_CPOL : Nat := 2

/-- Modelled from the spec: `SPI_MODE_X_MASK` of `linux/spi/spi.h` (not under src/),
`(SPI_CPOL | SPI_CPHA)`: the fixed 2-bit protocol-mode sub-field of the mode word. -/
def SPI_MODE_X_MASK : Nat := SPI_CPOL ||| SPI_CPHA

/-- Modelled from the spec: `SPI_MODE_0` of `linux/spi/spi.h`, `(0 | 0)`. -/
def SPI_MODE_0 : Nat := 0 ||| 0

/-- Modelled from the spec: `SPI_MODE_1` of `linux/spi/spi.h`, `(0 | SPI_CPHA)`. -/
def SPI_MODE_1 : Nat := 0 ||| SPI_CPHA

/-- Modelled from the spec: `SPI_MODE_2` of `linux/spi/spi.h`, `(SPI_CPOL | 0)`. -/
def SPI_MODE_2 : Nat := SPI_CPOL ||| 0

/-- Modelled from the spec: `SPI_MODE_3` of `linux/spi/spi.h`, `(SPI_CPOL | SPI_CPHA)`. -/
def SPI_MODE_3 : Nat := SPI_CPOL ||| SPI_CPHA

/-- Modelled from the spec: `O_RDWR` of `fcntl.h` (not under src/), the read-write open
mode. -/
def O_RDWR : Nat := 2

/-! ## Enumerated protocol modes (`trans_spi.h`, lines 42-50) -/

def TransSpiProtocolMode_Mode_0 : Int := SPI_MODE_0
def TransSpiProtocolMode_Mode_1 : Int := SPI_MODE_1
def TransSpiProtocolMode_Mode_2 : Int := SPI_MODE_2
def TransSpiProtocolMode_Mode_3 : Int := SPI_MODE_3

/-! ## Integer conversions -/

/-- Conversion of a signed integer to `uint32_t` (value modulo 2^32). -/
def toU32 (x : Int) : Nat := (x % 2 ^ 32).toNat

/-- Conversion of a signed integer to `__u8` (value modulo 2^8). -/
def toU8 (x : Int) : Nat := (x % 2 ^ 8).toNat

/-- Bitwise complement `~x` as seen after truncation to `uint32_t`. -/
def not_u32 (x : Nat) : Nat := (2 ^ 32 - 1) ^^^ (x % 2 ^ 32)

/-! ## Data model (`trans_spi.h`) -/

/-- The connection `TransSpi_t`: descriptor `fd_` (`int32_t`), cached word width
`bits_per_word_` (`int8_t`), cached clock speed `speed_` (`uint32_t`). -/
structure TransSpi_t where
  fd_ : Int
  bits_per_word_ : Int
  speed_ : Nat
deriving DecidableEq, Repr

/-- The configuration `TransSpiConfig_t`. -/
structure TransSpiConfig_t where
  device_name : String
  protocol_mode : Int
  bits_per_word : Int
  speed : Nat
deriving DecidableEq, Repr

/-- Modelled from the spec: the exchange descriptor `struct spi_ioc_transfer` of
`linux/spi/spidev.h` (not under src/): transmit and receive buffer references
(`__u64`), byte length and speed (`__u32`), `delay_usecs` (`__u16`), and the `__u8`
fields `bits_per_word`, `cs_change`, `tx_nbits`, `rx_nbits`, `word_delay_usecs`,
`pad`. -/
structure spi_ioc_transfer where
  tx_buf : Nat
  rx_buf : Nat
  len : Nat
  speed_hz : Nat
  delay_usecs : Nat
  bits_per_word : Nat
  cs_change : Nat
  tx_nbits : Nat
  rx_nbits : Nat
  word_delay_usecs : Nat
  pad : Nat
deriving DecidableEq, Repr

/-- The descriptor after `memset(&transfer_buf, 0, sizeof(struct spi_ioc_transfer))`. -/
def spi_ioc_transfer.zeroed : spi_ioc_transfer :=
  { tx_buf := 0, rx_buf := 0, len := 0, speed_hz := 0, delay_usecs := 0,
    bits_per_word := 0, cs_change := 0, tx_nbits := 0, rx_nbits := 0,
    word_delay_usecs := 0, pad := 0 }

/-! ## The operating system seen from the library -/

/-- The `ioctl` requests the library issues, each with the argument the kernel reads
through the pointer it is given. -/
inductive Request where
  | SPI_IOC_WR_MAX_SPEED_HZ (speed : Nat)
  | SPI_IOC_WR_BITS_PER_WORD (bits : Nat)
  | SPI_IOC_RD_MODE32
  | SPI_IOC_WR_MODE32 (mode_word : Nat)
  | SPI_IOC_MESSAGE (transfers : List spi_ioc_transfer)
deriving DecidableEq, Repr

/-- The system calls the library issues. -/
inductive Call where
  | sys_open (path : String) (flags : Nat)
  | sys_close (fd : Int)
  | sys_ioctl (fd : Int) (request : Request)
deriving DecidableEq, Repr

/-- The diagnostic lines the library prints, one constructor per `printf`. -/
inductive Diag where
  | open_failure (device_name : String)
  | configure_failure (device_name : String)
  | close_failure
  | transfer_failure
  | bus_speed_failure
  | bits_per_word_failure
  | invalid_protocol
  | get_mode_failure
  | set_mode_failure
deriving DecidableEq, Repr

/-- The world outside the library.

* `oracle n` is the value the `n`-th system call reports;
* `miso n i` is the `i`-th byte the device clocks in during the `n`-th system call;
* `latch old x` is the content of the device mode register after a successful write
  of `x` over `old`;
* `mode` is the device mode register, `mem` the caller's memory (address to byte);
* `calls` is the log of the system calls issued so far, `diag` the printed lines. -/
structure World where
  oracle : Nat → Int
  miso : Nat → Nat → Nat
  latch : Nat → Nat → Nat
  mode : Nat
  mem : Nat → Nat
  calls : List Call
  diag : List Diag

/-- The value the next system call issued in `w` reports. -/
def World.next_result (w : World) : Int := w.oracle w.calls.length

/-- Whether a logged call is a `close`. -/
def Call.isClose : Call → Bool
  | .sys_close _ => true
  | _ => false

/-- Whether a logged call is a read of the device mode register. -/
def Call.isModeRead : Call → Bool
  | .sys_ioctl _ .SPI_IOC_RD_MODE32 => true
  | _ => false

/-- Modelled from the spec: the effect of one successful exchange on the caller's
memory (the kernel side of `SPI_IOC_MESSAGE`, not under src/): "on success, `rx`
contains the bytes clocked in during the exchange", that is `len` bytes starting at
`rx_buf`. -/
def rx_fill (bytes : Nat → Nat) (mem : Nat → Nat) (t : spi_ioc_transfer) : Nat → Nat :=
  fun a => if t.rx_buf ≤ a ∧ a < t.rx_buf + t.len then bytes (a - t.rx_buf) % 256 else mem a

/-- Modelled from the spec: the system call interface (`open`, `close`, `ioctl`, not
under src/).  The call is logged and reports `oracle` at its index.  A mode-word write
and an exchange that do not report failure (a negative value) take effect on the
device register and on the receive buffers; a failing call has no effect. -/
def syscall (c : Call) (w : World) : Int × World :=
  let n := w.calls.length
  let r := w.next_result
  let w1 := { w with calls := w.calls ++ [c] }
  match c with
  | .sys_ioctl _ (.SPI_IOC_WR_MODE32 x) =>
      (r, if 0 ≤ r then { w1 with mode := w.latch w.mode x } else w1)
  | .sys_ioctl _ (.SPI_IOC_MESSAGE ts) =>
      (r, if 0 ≤ r then { w1 with mem := ts.foldl (rx_fill (w.miso n)) w.mem } else w1)
  | _ => (r, w1)

/-- Modelled from the spec: what `ioctl(fd, SPI_IOC_RD_MODE32, p)` leaves in `*p`
(kernel side, not under src/): the device mode register when the call does not report
failure, the previous content `old` otherwise.  `w` is the world before the call. -/
def rd_mode32_out (w : World) (old : Nat) : Nat :=
  if 0 ≤ w.next_result then w.mode else old

/-- One `printf`. -/
def print (d : Diag) (w : World) : World := { w with diag := w.diag ++ [d] }

/-! ## The library functions (`trans_spi.c`) -/

/-- What a library function leaves behind: its return value, the connection behind
`spi_h`, and the world. -/
structure Result where
  status : Int
  spi_h : TransSpi_t
  world : World

/-- A `Result` together with the content of the `mode_word` out-parameter. -/
structure ModeResult where
  status : Int
  spi_h : TransSpi_t
  mode_word : Nat
  world : World

/-- `TransSpi_destroy` (lines 41-53). -/
def TransSpi_destroy (spi_h : TransSpi_t) (w : World) : Result :=
  let status := TRANS_SPI_NO_ERROR
  let c := syscall (.sys_close spi_h.fd_) w
  if c.1 ≠ 0 then
    { status := TRANS_SPI_CLOSE_ERROR, spi_h := spi_h, world := print .close_failure c.2 }
  else
    { status := status, spi_h := spi_h, world := c.2 }

/-- `TransSpi_transfer` (lines 55-81).  `tx_buf` and `rx_buf` are the addresses of the
caller's buffers as `unsigned long long`.  The store of the `int8_t` cache
`bits_per_word_` into the `__u8` field converts it to unsigned. -/
def TransSpi_transfer (spi_h : TransSpi_t) (tx_buf rx_buf : Nat) (buf_size : Nat)
    (w : World) : Result :=
  let status := TRANS_SPI_NO_ERROR
  let transfer_buf := spi_ioc_transfer.zeroed
  let transfer_buf := { transfer_buf with tx_buf := tx_buf }
  let transfer_buf := { transfer_buf with rx_buf := rx_buf }
  let transfer_buf := { transfer_buf with len := buf_size }
  let transfer_buf := { transfer_buf with speed_hz := spi_h.speed_ }
  let transfer_buf := { transfer_buf with bits_per_word := toU8 spi_h.bits_per_word_ }
  let transfer_buf := { transfer_buf with cs_change := 1 }
  let c := syscall (.sys_ioctl spi_h.fd_ (.SPI_IOC_MESSAGE [transfer_buf])) w
  if c.1 < 0 then
    { status := TRANS_SPI_TRANSFER_ERROR, spi_h := spi_h, world := print .transfer_failure c.2 }
  else
    { status := status, spi_h := spi_h, world := c.2 }

/-- `_TransSpi_set_bus_speed` (lines 83-99). -/
def _TransSpi_set_bus_speed (spi_h : TransSpi_t) (speed : Nat) (w : World) : Result :=
  let status := TRANS_SPI_NO_ERROR
  let c := syscall (.sys_ioctl spi_h.fd_ (.SPI_IOC_WR_MAX_SPEED_HZ speed)) w
  let sw : Int × World :=
    if c.1 < 0 then (TRANS_SPI_CONFIG_ERROR, print .bus_speed_failure c.2) else (status, c.2)
  { status := sw.1, spi_h := { spi_h with speed_ := speed }, world := sw.2 }

/-- `_TransSpi_set_bits_per_word` (lines 101-116).  The kernel reads the `int8_t`
argument through the pointer as a `__u8`.  The test of the `ioctl` result is
`if (ioctl(...))`, that is "different from zero". -/
def _TransSpi_set_bits_per_word (spi_h : TransSpi_t) (bits_per_word : Int) (w : World) :
    Result :=
  let status := TRANS_SPI_NO_ERROR
  let c := syscall (.sys_ioctl spi_h.fd_ (.SPI_IOC_WR_BITS_PER_WORD (toU8 bits_per_word))) w
  let sw : Int × World :=
    if c.1 ≠ 0 then (TRANS_SPI_CONFIG_ERROR, print .bits_per_word_failure c.2) else (status, c.2)
  { status := sw.1, spi_h := { spi_h with bits_per_word_ := bits_per_word }, world := sw.2 }

/-- `_TransSpi_get_mode_word` (lines 151-164).  `mode_word` is the content of the
out-parameter before the call. -/
def _TransSpi_get_mode_word (spi_h : TransSpi_t) (mode_word : Nat) (w : World) : ModeResult :=
  let status := TRANS_SPI_NO_ERROR
  let c := syscall (.sys_ioctl spi_h.fd_ .SPI_IOC_RD_MODE32) w
  let mode_word := rd_mode32_out w mode_word
  if c.1 < 0 then
    { status := TRANS_SPI_GET_MODE_ERROR, spi_h := spi_h, mode_word := mode_word,
      world := print .get_mode_failure c.2 }
  else
    { status := status, spi_h := spi_h, mode_word := mode_word, world := c.2 }

/-- `_TransSpi_set_mode_word` (lines 166-179). -/
def _TransSpi_set_mode_word (spi_h : TransSpi_t) (mode_word : Nat) (w : World) : Result :=
  let status := TRANS_SPI_NO_ERROR
  let c := syscall (.sys_ioctl spi_h.fd_ (.SPI_IOC_WR_MODE32 mode_word)) w
  if c.1 < 0 then
    { status := TRANS_SPI_SET_MODE_ERROR, spi_h := spi_h, world := print .set_mode_failure c.2 }
  else
    { status := status, spi_h := spi_h, world := c.2 }

/-- `_TransSpi_set_protocol_mode` (lines 118-149).  The local `mode_word` is
uninitialised in C; it is read only after a successful `_TransSpi_get_mode_word` has
written it, and starts at 0 here.  In `mode_word |= protocol_mode` the `int8_t`
operand is converted to the unsigned type of `mode_word`. -/
def _TransSpi_set_protocol_mode (spi_h : TransSpi_t) (protocol_mode : Int) (w : World) :
    Result :=
  let status := TRANS_SPI_NO_ERROR
  let mode_word : Nat := 0
  -- validate arg
  let sw : Int × World :=
    if protocol_mode ≠ TransSpiProtocolMode_Mode_0 ∧ protocol_mode ≠ TransSpiProtocolMode_Mode_1 ∧
        protocol_mode ≠ TransSpiProtocolMode_Mode_2 ∧ protocol_mode ≠ TransSpiProtocolMode_Mode_3
    then (TRANS_SPI_BAD_ARGUMENT_ERROR, print .invalid_protocol w)
    else (status, w)
  -- attempt to get old mode word config
  let g : ModeResult :=
    if sw.1 = TRANS_SPI_NO_ERROR then _TransSpi_get_mode_word spi_h mode_word sw.2
    else { status := sw.1, spi_h := spi_h, mode_word := mode_word, world := sw.2 }
  if g.status = TRANS_SPI_NO_ERROR then
    -- mask mode bits
    let mode_word := (g.mode_word &&& not_u32 SPI_MODE_X_MASK) % 2 ^ 32
    -- set new protocol mode
    let mode_word := (mode_word ||| toU32 protocol_mode) % 2 ^ 32
    -- set new mode word
    _TransSpi_set_mode_word g.spi_h mode_word g.world
  else
    { status := g.status, spi_h := g.spi_h, world := g.world }

/-- `TransSpi_create` (lines 9-39).  `status |= ...` is the bitwise OR of `int32_t`
values, `Int.lor` on integers in two's complement. -/
def TransSpi_create (spi_h : TransSpi_t) (config : TransSpiConfig_t) (w : World) : Result :=
  let status := TRANS_SPI_NO_ERROR
  -- attempt to open
  let c := syscall (.sys_open config.device_name O_RDWR) w
  let spi_h := { spi_h with fd_ := c.1 }
  let sw : Int × World :=
    if spi_h.fd_ < 0 then (TRANS_SPI_OPEN_ERROR, print (.open_failure config.device_name) c.2)
    else (status, c.2)
  -- dispatch configuration commands
  if sw.1 = TRANS_SPI_NO_ERROR then
    let r1 := _TransSpi_set_bus_speed spi_h config.speed sw.2
    let status := Int.lor sw.1 r1.status
    let r2 := _TransSpi_set_bits_per_word r1.spi_h config.bits_per_word r1.world
    let status := Int.lor status r2.status
    let r3 := _TransSpi_set_protocol_mode r2.spi_h config.protocol_mode r2.world
    let status := Int.lor status r3.status
    -- close if failure to configure and opened
    if status ≠ TRANS_SPI_NO_ERROR then
      let d := TransSpi_destroy r3.spi_h (print (.configure_failure config.device_name) r3.world)
      { status := TRANS_SPI_CONFIG_ERROR, spi_h := d.spi_h, world := d.world }
    else
      { status := status, spi_h := r3.spi_h, world := r3.world }
  else
    { status := sw.1, spi_h := spi_h, world := sw.2 }

/-! ## Fixtures for concrete evaluation -/

/-- A world with no call issued yet, an empty mode register, zeroed memory, a device
that stores a written mode word verbatim and clocks in zero bytes, and the given
outcomes of the system calls. -/
def World.boot (oracle : Nat → Int) : World :=
  { oracle := oracle, miso := fun _ _ => 0, latch := fun _ x => x, mode := 0,
    mem := fun _ => 0, calls := [], diag := [] }

/-! ## Values of the constants -/

theorem Mode_0_val : TransSpiProtocolMode_Mode_0 = 0 := by decide

theorem Mode_1_val : TransSpiProtocolMode_Mode_1 = 1 := by decide

theorem Mode_2_val : TransSpiProtocolMode_Mode_2 = 2 := by decide

theorem Mode_3_val : TransSpiProtocolMode_Mode_3 = 3 := by decide

theorem SPI_MODE_X_MASK_val : SPI_MODE_X_MASK = 3 := by decide

/-! ## Bit-level lemmas -/

/-- Bit `i` of `~SPI_MODE_X_MASK` (as a `uint32_t`) is set exactly for `2 ≤ i < 32`. -/
theorem testBit_not_u32_mask (i : Nat) :
    (not_u32 SPI_MODE_X_MASK).testBit i = (decide (i < 32) && !decide (i < 2)) := by
  have h3 : (3 : Nat) = 2 ^ 2 - 1 := by norm_num
  rw [SPI_MODE_X_MASK_val]
  unfold not_u32
  rw [Nat.testBit_xor, Nat.testBit_two_pow_sub_one, Nat.mod_eq_of_lt (by norm_num : 3 < 2 ^ 32)]
  rw [h3, Nat.testBit_two_pow_sub_one]
  by_cases h1 : i < 32 <;> by_cases h2 : i < 2 <;> simp [h1, h2]
  omega

/-- Bit `i` of `SPI_MODE_X_MASK` is set exactly for `i < 2`. -/
theorem testBit_mask (i : Nat) : SPI_MODE_X_MASK.testBit i = decide (i < 2) := by
  have h3 : (3 : Nat) = 2 ^ 2 - 1 := by norm_num
  rw [SPI_MODE_X_MASK_val, h3, Nat.testBit_two_pow_sub_one]

/-- A value below 4 has no bit set from position 2 on. -/
theorem testBit_of_lt_four (m i : Nat) (hm : m < 4) (hi : ¬ i < 2) : m.testBit i = false := by
  apply Nat.testBit_lt_two_pow
  calc m < 4 := hm
    _ = 2 ^ 2 := by norm_num
    _ ≤ 2 ^ i := Nat.pow_le_pow_right (by norm_num) (by omega)

/-- The merged word has the new mode in its protocol-mode sub-field. -/
theorem merge_low (x m : Nat) (hm : m < 4) :
    (((x &&& not_u32 SPI_MODE_X_MASK) % 2 ^ 32 ||| m) % 2 ^ 32) &&& SPI_MODE_X_MASK = m := by
  apply Nat.eq_of_testBit_eq
  intro i
  rw [Nat.testBit_and, Nat.testBit_mod_two_pow, Nat.testBit_or, Nat.testBit_mod_two_pow,
    Nat.testBit_and, testBit_not_u32_mask, testBit_mask]
  by_cases h1 : i < 32 <;> by_cases h2 : i < 2 <;> simp [h1, h2, testBit_of_lt_four m i hm]
  omega

/-- The merged word agrees with the old word outside the protocol-mode sub-field. -/
theorem merge_high (x m : Nat) (hm : m < 4) :
    (((x &&& not_u32 SPI_MODE_X_MASK) % 2 ^ 32 ||| m) % 2 ^ 32) &&& not_u32 SPI_MODE_X_MASK
      = x &&& not_u32 SPI_MODE_X_MASK := by
  apply Nat.eq_of_testBit_eq
  intro i
  rw [Nat.testBit_and, Nat.testBit_mod_two_pow, Nat.testBit_or, Nat.testBit_mod_two_pow,
    Nat.testBit_and, testBit_not_u32_mask]
  by_cases h1 : i < 32 <;> by_cases h2 : i < 2 <;> simp [h1, h2, testBit_of_lt_four m i hm]

/-- Every bit of the merged word from position 2 on is the bit of the old 32-bit word. -/
theorem merge_bits_above (x m : Nat) (hx : x < 2 ^ 32) (hm : m < 4) (i : Nat) (hi : 2 ≤ i) :
    (((x &&& not_u32 SPI_MODE_X_MASK) % 2 ^ 32 ||| m) % 2 ^ 32).testBit i = x.testBit i := by
  rw [Nat.testBit_mod_two_pow, Nat.testBit_or, Nat.testBit_mod_two_pow,
    Nat.testBit_and, testBit_not_u32_mask]
  have h2 : ¬ i < 2 := by omega
  by_cases h1 : i < 32
  · simp [h1, h2, testBit_of_lt_four m i hm]
  · have hxi : x.testBit i = false := by
      apply Nat.testBit_lt_two_pow
      exact lt_of_lt_of_le hx (Nat.pow_le_pow_right (by norm_num) (by omega))
    simp [h1, hxi]

/-- Bitwise OR of two natural numbers is zero only when both are. -/
theorem nat_lor_eq_zero (a b : Nat) : a ||| b = 0 ↔ a = 0 ∧ b = 0 := by
  constructor
  · intro h
    have hbit : ∀ i, (a.testBit i || b.testBit i) = false := by
      intro i
      rw [← Nat.testBit_or, h, Nat.zero_testBit]
    constructor
    · apply Nat.eq_of_testBit_eq
      intro i
      have := hbit i
      rw [Nat.zero_testBit]
      cases ha : a.testBit i <;> simp [ha] at this ⊢
    · apply Nat.eq_of_testBit_eq
      intro i
      have := hbit i
      rw [Nat.zero_testBit]
      cases hb : b.testBit i <;> simp [hb] at this ⊢
  · rintro ⟨rfl, rfl⟩
    rfl

/-- Bitwise OR of two integers (two's complement) is zero only when both are. -/
theorem int_lor_eq_zero (a b : Int) : Int.lor a b = 0 ↔ a = 0 ∧ b = 0 := by
  cases a <;> cases b <;> simp [Int.lor]
  exact nat_lor_eq_zero _ _

/-! ## Cached parameters (C6) -/

/-- C6: after `_TransSpi_set_bus_speed` the cached `speed_` is the requested speed and
after `_TransSpi_set_bits_per_word` the cached `bits_per_word_` is the requested width,
in every world (so whether the device write succeeds or fails); the other fields of the
connection keep their values. -/
theorem C6_cache_follows_request (spi_h : TransSpi_t) (speed : Nat) (bits_per_word : Int)
    (w : World) :
    (_TransSpi_set_bus_speed spi_h speed w).spi_h
        = { fd_ := spi_h.fd_, bits_per_word_ := spi_h.bits_per_word_, speed_ := speed } ∧
    (_TransSpi_set_bits_per_word spi_h bits_per_word w).spi_h
        = { fd_ := spi_h.fd_, bits_per_word_ := bits_per_word, speed_ := spi_h.speed_ } := by
  constructor <;> rfl

/-! ## Status of the two direct setters (C10) -/

/-- The status of `_TransSpi_set_bus_speed` in terms of the value the device write
reports: Config when it is negative, NoError otherwise. -/
theorem set_bus_speed_status (spi_h : TransSpi_t) (speed : Nat) (w : World) :
    (_TransSpi_set_bus_speed spi_h speed w).status
      = if w.next_result < 0 then TRANS_SPI_CONFIG_ERROR else TRANS_SPI_NO_ERROR := by
  simp only [_TransSpi_set_bus_speed, syscall]
  split <;> rfl

/-- The status of `_TransSpi_set_bits_per_word` in terms of the value the device write
reports: Config when it is different from zero, NoError when it is zero. -/
theorem set_bits_per_word_status (spi_h : TransSpi_t) (bits_per_word : Int) (w : World) :
    (_TransSpi_set_bits_per_word spi_h bits_per_word w).status
      = if w.next_result ≠ 0 then TRANS_SPI_CONFIG_ERROR else TRANS_SPI_NO_ERROR := by
  simp only [_TransSpi_set_bits_per_word, syscall]
  split <;> rfl

/-- The two setters report the same status for every device result that is zero or
negative. -/
theorem setters_agree_of_nonpos (spi_h : TransSpi_t) (speed : Nat) (bits_per_word : Int)
    (w : World) (hr : w.next_result ≤ 0) :
    (_TransSpi_set_bits_per_word spi_h bits_per_word w).status
      = (_TransSpi_set_bus_speed spi_h speed w).status := by
  rw [set_bus_speed_status, set_bits_per_word_status]
  by_cases h : w.next_result < 0
  · have h0 : w.next_result ≠ 0 := by omega
    simp [h, h0]
  · have h0 : w.next_result = 0 := by omega
    simp [h0]

/-- C10: at the device result 1 (a write that does not report failure) the two setters
disagree: `_TransSpi_set_bus_speed` returns NoError and `_TransSpi_set_bits_per_word`
returns Config. -/
theorem C10_setters_disagree_on_positive_result :
    (_TransSpi_set_bus_speed { fd_ := 3, bits_per_word_ := 0, speed_ := 0 } 4000000
        (World.boot fun _ => 1)).status = TRANS_SPI_NO_ERROR ∧
    (_TransSpi_set_bits_per_word { fd_ := 3, bits_per_word_ := 0, speed_ := 0 } 8
        (World.boot fun _ => 1)).status = TRANS_SPI_CONFIG_ERROR := by
  constructor <;> decide

/-! ## Validation of the protocol mode (C2) -/

/-- C2: for every protocol mode outside 0..3 (negative values included)
`_TransSpi_set_protocol_mode` returns BadArgument, issues no system call at all (so no
register read and no register write), and leaves the device mode register, the
caller's memory and the connection as they were; its only effect is one diagnostic
line. -/
theorem C2_invalid_mode_rejected (spi_h : TransSpi_t) (protocol_mode : Int) (w : World)
    (hm : protocol_mode < 0 ∨ 3 < protocol_mode) :
    (_TransSpi_set_protocol_mode spi_h protocol_mode w).status = TRANS_SPI_BAD_ARGUMENT_ERROR ∧
    (_TransSpi_set_protocol_mode spi_h protocol_mode w).world.calls = w.calls ∧
    (_TransSpi_set_protocol_mode spi_h protocol_mode w).world.mode = w.mode ∧
    (_TransSpi_set_protocol_mode spi_h protocol_mode w).spi_h = spi_h ∧
    (_TransSpi_set_protocol_mode spi_h protocol_mode w).world = print .invalid_protocol w := by
  have h0 : protocol_mode ≠ TransSpiProtocolMode_Mode_0 := by rw [Mode_0_val]; omega
  have h1 : protocol_mode ≠ TransSpiProtocolMode_Mode_1 := by rw [Mode_1_val]; omega
  have h2 : protocol_mode ≠ TransSpiProtocolMode_Mode_2 := by rw [Mode_2_val]; omega
  have h3 : protocol_mode ≠ TransSpiProtocolMode_Mode_3 := by rw [Mode_3_val]; omega
  simp [_TransSpi_set_protocol_mode, h0, h1, h2, h3, TRANS_SPI_BAD_ARGUMENT_ERROR,
    TRANS_SPI_NO_ERROR, print]

/-- Witness for C2 at the mode value -1 on a fresh world. -/
theorem C2_invalid_mode_rejected_witness :
    ((-1 : Int) < 0 ∨ 3 < (-1 : Int)) ∧
    (_TransSpi_set_protocol_mode { fd_ := 3, bits_per_word_ := 8, speed_ := 4000000 } (-1)
        (World.boot fun _ => 0)).status = TRANS_SPI_BAD_ARGUMENT_ERROR ∧
    (_TransSpi_set_protocol_mode { fd_ := 3, bits_per_word_ := 8, speed_ := 4000000 } (-1)
        (World.boot fun _ => 0)).world.calls = [] :=
  ⟨by decide,
   (C2_invalid_mode_rejected { fd_ := 3, bits_per_word_ := 8, speed_ := 4000000 } (-1)
      (World.boot fun _ => 0) (by decide)).1,
   (C2_invalid_mode_rejected { fd_ := 3, bits_per_word_ := 8, speed_ := 4000000 } (-1)
      (World.boot fun _ => 0) (by decide)).2.1⟩

/-! ## Failure of the open (C5) -/

/-- C5: when the open of the device path reports a negative descriptor,
`TransSpi_create` returns Open and the open is the only system call it issues (no
speed write, no bits-per-word write, no mode-word read or write, no close); the cached
speed and word width of the connection and the device mode register keep their
values. -/
theorem C5_open_failure_skips_configuration (spi_h : TransSpi_t) (config : TransSpiConfig_t)
    (w : World) (hopen : (syscall (.sys_open config.device_name O_RDWR) w).1 < 0) :
    (TransSpi_create spi_h config w).status = TRANS_SPI_OPEN_ERROR ∧
    (TransSpi_create spi_h config w).world.calls
      = w.calls ++ [.sys_open config.device_name O_RDWR] ∧
    (TransSpi_create spi_h config w).spi_h.speed_ = spi_h.speed_ ∧
    (TransSpi_create spi_h config w).spi_h.bits_per_word_ = spi_h.bits_per_word_ ∧
    (TransSpi_create spi_h config w).world.mode = w.mode := by
  have hr : w.next_result < 0 := by simpa [syscall] using hopen
  simp [TransSpi_create, syscall, hr, print, TRANS_SPI_OPEN_ERROR, TRANS_SPI_NO_ERROR]

/-- Witness for C5: the open reports -1. -/
theorem C5_open_failure_skips_configuration_witness :
    (syscall (.sys_open "/dev/spidev0.0" O_RDWR) (World.boot fun _ => -1)).1 < 0 ∧
    (TransSpi_create { fd_ := 0, bits_per_word_ := 0, speed_ := 0 }
        { device_name := "/dev/spidev0.0", protocol_mode := 0, bits_per_word := 8,
          speed := 4000000 } (World.boot fun _ => -1)).status = TRANS_SPI_OPEN_ERROR :=
  ⟨by decide,
   (C5_open_failure_skips_configuration { fd_ := 0, bits_per_word_ := 0, speed_ := 0 }
      { device_name := "/dev/spidev0.0", protocol_mode := 0, bits_per_word := 8,
        speed := 4000000 } (World.boot fun _ => -1) (by decide)).1⟩

/-! ## The exchange descriptor (C7) -/

/-- The single system call of `TransSpi_transfer`: one `SPI_IOC_MESSAGE` request on the
connection's descriptor carrying exactly one exchange descriptor, whose fields are
spelled out. -/
theorem transfer_calls (spi_h : TransSpi_t) (tx_buf rx_buf buf_size : Nat) (w : World) :
    (TransSpi_transfer spi_h tx_buf rx_buf buf_size w).world.calls
      = w.calls ++ [.sys_ioctl spi_h.fd_ (.SPI_IOC_MESSAGE
          [{ tx_buf := tx_buf, rx_buf := rx_buf, len := buf_size, speed_hz := spi_h.speed_,
             delay_usecs := 0, bits_per_word := toU8 spi_h.bits_per_word_, cs_change := 1,
             tx_nbits := 0, rx_nbits := 0, word_delay_usecs := 0, pad := 0 }])] := by
  simp only [TransSpi_transfer, syscall, spi_ioc_transfer.zeroed, print]
  split <;> split <;> rfl

/-- The unsigned reading of a word width is its value modulo 256. -/
theorem toU8_cast (x : Int) : ((toU8 x : Nat) : Int) = x % 256 := by
  unfold toU8
  have h : (0 : Int) ≤ x % 2 ^ 8 := Int.emod_nonneg x (by norm_num)
  rw [Int.toNat_of_nonneg h]
  norm_num

/-- C7 as stated fails: with the cached word width -1 the descriptor handed to the
device carries the word width 255, so no descriptor with all the stated fields
(bits-per-word equal to the cached value among them) is the one issued. -/
theorem C7_counterexample_negative_width :
    ¬ (∀ (spi_h : TransSpi_t) (tx_buf rx_buf buf_size : Nat) (w : World),
        -128 ≤ spi_h.bits_per_word_ → spi_h.bits_per_word_ ≤ 127 →
        ∃ d : spi_ioc_transfer,
          (TransSpi_transfer spi_h tx_buf rx_buf buf_size w).world.calls
            = w.calls ++ [.sys_ioctl spi_h.fd_ (.SPI_IOC_MESSAGE [d])] ∧
          d.tx_buf = tx_buf ∧ d.rx_buf = rx_buf ∧ d.len = buf_size ∧
          d.speed_hz = spi_h.speed_ ∧ (d.bits_per_word : Int) = spi_h.bits_per_word_ ∧
          d.cs_change = 1 ∧ d.delay_usecs = 0 ∧ d.tx_nbits = 0 ∧ d.rx_nbits = 0 ∧
          d.word_delay_usecs = 0 ∧ d.pad = 0) := by
  intro h
  obtain ⟨d, _, _, _, _, _, hb, _⟩ :=
    h { fd_ := 3, bits_per_word_ := -1, speed_ := 4000000 } 4096 8192 4
      (World.boot fun _ => 0) (by decide) (by decide)
  have hd : (0 : Int) ≤ (d.bits_per_word : Int) := Int.natCast_nonneg _
  rw [hb] at hd
  exact absurd hd (by decide)

/-- C7 (amended): in every connection state and for every pair of buffers and every
length, `TransSpi_transfer` issues exactly one system call, a single-descriptor
exchange, whose descriptor has the caller's buffers, the length `buf_size`, the cached
`speed_`, the cached `bits_per_word_` read as an unsigned 8-bit value (the cached value
modulo 256), chip-select-change 1, and zero in every other field. -/
theorem C7_descriptor_fields (spi_h : TransSpi_t) (tx_buf rx_buf buf_size : Nat) (w : World) :
    ∃ d : spi_ioc_transfer,
      (TransSpi_transfer spi_h tx_buf rx_buf buf_size w).world.calls
        = w.calls ++ [.sys_ioctl spi_h.fd_ (.SPI_IOC_MESSAGE [d])] ∧
      d.tx_buf = tx_buf ∧ d.rx_buf = rx_buf ∧ d.len = buf_size ∧
      d.speed_hz = spi_h.speed_ ∧ (d.bits_per_word : Int) = spi_h.bits_per_word_ % 256 ∧
      d.cs_change = 1 ∧ d.delay_usecs = 0 ∧ d.tx_nbits = 0 ∧ d.rx_nbits = 0 ∧
      d.word_delay_usecs = 0 ∧ d.pad = 0 :=
  ⟨_, transfer_calls spi_h tx_buf rx_buf buf_size w, rfl, rfl, rfl, rfl,
    toU8_cast spi_h.bits_per_word_, rfl, rfl, rfl, rfl, rfl, rfl⟩

/-! ## Status and frame of a transfer (C8) -/

/-- C8: `TransSpi_transfer` returns Transfer exactly when the exchange call reports a
negative result and NoError otherwise; in both cases the connection is returned as it
was, the exchange is the only system call issued (no close), and a further transfer on
the connection left behind issues the same call as a transfer on the original
connection in any world. -/
theorem C8_transfer_status_and_frame (spi_h : TransSpi_t) (tx_buf rx_buf buf_size : Nat)
    (w : World) :
    (TransSpi_transfer spi_h tx_buf rx_buf buf_size w).status
      = (if w.next_result < 0 then TRANS_SPI_TRANSFER_ERROR else TRANS_SPI_NO_ERROR) ∧
    ((TransSpi_transfer spi_h tx_buf rx_buf buf_size w).status = TRANS_SPI_TRANSFER_ERROR
      ↔ w.next_result < 0) ∧
    (TransSpi_transfer spi_h tx_buf rx_buf buf_size w).spi_h = spi_h ∧
    ((TransSpi_transfer spi_h tx_buf rx_buf buf_size w).world.calls.drop w.calls.length).countP
      Call.isClose = 0 ∧
    (∀ (tx2 rx2 size2 : Nat) (w2 : World),
      (TransSpi_transfer (TransSpi_transfer spi_h tx_buf rx_buf buf_size w).spi_h tx2 rx2 size2
          (TransSpi_transfer spi_h tx_buf rx_buf buf_size w).world).world.calls.getLast?
        = (TransSpi_transfer spi_h tx2 rx2 size2 w2).world.calls.getLast?) := by
  have hs : (TransSpi_transfer spi_h tx_buf rx_buf buf_size w).status
      = (if w.next_result < 0 then TRANS_SPI_TRANSFER_ERROR else TRANS_SPI_NO_ERROR) := by
    simp only [TransSpi_transfer, syscall]
    split <;> rfl
  have hh : (TransSpi_transfer spi_h tx_buf rx_buf buf_size w).spi_h = spi_h := by
    simp only [TransSpi_transfer]
    split <;> rfl
  refine ⟨hs, ?_, hh, ?_, ?_⟩
  · rw [hs]
    by_cases h : w.next_result < 0 <;>
      simp [h, TRANS_SPI_TRANSFER_ERROR, TRANS_SPI_NO_ERROR]
  · rw [transfer_calls]
    simp [Call.isClose]
  · intro tx2 rx2 size2 w2
    rw [hh, transfer_calls, transfer_calls spi_h tx2 rx2 size2 w2]
    simp

/-! ## Transfers of length zero (C9) -/

/-- C9 as stated fails: on an open connection (descriptor 3) a transfer of length zero
whose exchange call reports -1 returns Transfer, not NoError. -/
theorem C9_counterexample_failing_exchange :
    ¬ (∀ (spi_h : TransSpi_t) (tx_buf rx_buf : Nat) (w : World), 0 ≤ spi_h.fd_ →
        (TransSpi_transfer spi_h tx_buf rx_buf 0 w).status = TRANS_SPI_NO_ERROR ∧
        (TransSpi_transfer spi_h tx_buf rx_buf 0 w).world.mem = w.mem) := by
  intro h
  have h1 := (h { fd_ := 3, bits_per_word_ := 8, speed_ := 4000000 } 4096 8192
    (World.boot fun _ => -1) (by decide)).1
  revert h1
  decide

/-- C9 (amended): a transfer of length zero returns NoError whenever its exchange call
does not report failure (a negative result); whatever the exchange reports, it issues
exactly one exchange, of length zero, and no byte of the caller's memory, the receive
buffer included, is changed. -/
theorem C9_zero_length_transfer (spi_h : TransSpi_t) (tx_buf rx_buf : Nat) (w : World) :
    (0 ≤ w.next_result →
      (TransSpi_transfer spi_h tx_buf rx_buf 0 w).status = TRANS_SPI_NO_ERROR) ∧
    (TransSpi_transfer spi_h tx_buf rx_buf 0 w).world.mem = w.mem ∧
    (TransSpi_transfer spi_h tx_buf rx_buf 0 w).world.calls
      = w.calls ++ [.sys_ioctl spi_h.fd_ (.SPI_IOC_MESSAGE
          [{ tx_buf := tx_buf, rx_buf := rx_buf, len := 0, speed_hz := spi_h.speed_,
             delay_usecs := 0, bits_per_word := toU8 spi_h.bits_per_word_, cs_change := 1,
             tx_nbits := 0, rx_nbits := 0, word_delay_usecs := 0, pad := 0 }])] := by
  refine ⟨?_, ?_, transfer_calls spi_h tx_buf rx_buf 0 w⟩
  · intro hok
    have hn : ¬ w.next_result < 0 := by omega
    simp [TransSpi_transfer, syscall, hn]
  · by_cases hn : w.next_result < 0
    · have hneg : ¬ 0 ≤ w.next_result := by omega
      simp [TransSpi_transfer, syscall, hn, hneg, print]
    · have hok : 0 ≤ w.next_result := by omega
      simp only [TransSpi_transfer, syscall, hn, hok, if_true, if_false, List.foldl,
        spi_ioc_transfer.zeroed]
      funext a
      simp [rx_fill]

/-- Witness for C9 (amended): the exchange reports 0. -/
theorem C9_zero_length_transfer_witness :
    0 ≤ (World.boot fun _ => 0).next_result ∧
    (TransSpi_transfer { fd_ := 3, bits_per_word_ := 8, speed_ := 4000000 } 4096 8192 0
        (World.boot fun _ => 0)).status = TRANS_SPI_NO_ERROR :=
  ⟨by decide,
   (C9_zero_length_transfer { fd_ := 3, bits_per_word_ := 8, speed_ := 4000000 } 4096 8192
      (World.boot fun _ => 0)).1 (by decide)⟩

/-! ## Mask and merge of the protocol mode (C1) -/

/-- The four enumerated modes are the values 0..3, which convert to `uint32_t`
unchanged. -/
theorem toU32_of_enumerated (protocol_mode : Int)
    (hmode : protocol_mode = TransSpiProtocolMode_Mode_0 ∨
      protocol_mode = TransSpiProtocolMode_Mode_1 ∨
      protocol_mode = TransSpiProtocolMode_Mode_2 ∨
      protocol_mode = TransSpiProtocolMode_Mode_3) :
    toU32 protocol_mode < 4 ∧ ((toU32 protocol_mode : Nat) : Int) = protocol_mode := by
  rw [Mode_0_val, Mode_1_val, Mode_2_val, Mode_3_val] at hmode
  rcases hmode with h | h | h | h <;> subst h <;> decide

/-- The run of `_TransSpi_set_protocol_mode` on an enumerated mode when the register
read and the register write both succeed: NoError, and the device register holds what
the device latched from the merged word. -/
theorem set_protocol_mode_success (spi_h : TransSpi_t) (protocol_mode : Int) (w : World)
    (hmode : protocol_mode = TransSpiProtocolMode_Mode_0 ∨
      protocol_mode = TransSpiProtocolMode_Mode_1 ∨
      protocol_mode = TransSpiProtocolMode_Mode_2 ∨
      protocol_mode = TransSpiProtocolMode_Mode_3)
    (hread : 0 ≤ w.oracle w.calls.length)
    (hwrite : 0 ≤ w.oracle (w.calls.length + 1)) :
    (_TransSpi_set_protocol_mode spi_h protocol_mode w).status = TRANS_SPI_NO_ERROR ∧
    (_TransSpi_set_protocol_mode spi_h protocol_mode w).spi_h = spi_h ∧
    (_TransSpi_set_protocol_mode spi_h protocol_mode w).world.mode
      = w.latch w.mode
          (((w.mode &&& not_u32 SPI_MODE_X_MASK) % 2 ^ 32 ||| toU32 protocol_mode) % 2 ^ 32) ∧
    (_TransSpi_set_protocol_mode spi_h protocol_mode w).world.calls
      = w.calls ++ [.sys_ioctl spi_h.fd_ .SPI_IOC_RD_MODE32,
          .sys_ioctl spi_h.fd_ (.SPI_IOC_WR_MODE32
            (((w.mode &&& not_u32 SPI_MODE_X_MASK) % 2 ^ 32 ||| toU32 protocol_mode) % 2 ^ 32))] ∧
    (_TransSpi_set_protocol_mode spi_h protocol_mode w).world.oracle = w.oracle := by
  have hvalid : ¬ (protocol_mode ≠ TransSpiProtocolMode_Mode_0 ∧
      protocol_mode ≠ TransSpiProtocolMode_Mode_1 ∧
      protocol_mode ≠ TransSpiProtocolMode_Mode_2 ∧
      protocol_mode ≠ TransSpiProtocolMode_Mode_3) := by
    rintro ⟨h0, h1, h2, h3⟩
    rcases hmode with h | h | h | h
    · exact h0 h
    · exact h1 h
    · exact h2 h
    · exact h3 h
  have hr : ¬ w.oracle w.calls.length < 0 := by omega
  have hw : ¬ w.oracle (w.calls.length + 1) < 0 := by omega
  simp [_TransSpi_set_protocol_mode, _TransSpi_get_mode_word, _TransSpi_set_mode_word, syscall,
    rd_mode32_out, World.next_result, hvalid, hr, hw, hread, hwrite, TRANS_SPI_NO_ERROR]

/-- C1: for every 32-bit device mode word and each of the four enumerated modes, when
the register read and the register write succeed and the device stores the written
word verbatim, `_TransSpi_set_protocol_mode` returns NoError, and a following successful
`_TransSpi_get_mode_word` yields a word whose protocol-mode sub-field (mask
`SPI_MODE_X_MASK`) is the applied mode and whose other 30 bits are those of the
initial word. -/
theorem C1_protocol_mode_round_trip (spi_h : TransSpi_t) (protocol_mode : Int) (w : World)
    (old : Nat)
    (hmode : protocol_mode = TransSpiProtocolMode_Mode_0 ∨
      protocol_mode = TransSpiProtocolMode_Mode_1 ∨
      protocol_mode = TransSpiProtocolMode_Mode_2 ∨
      protocol_mode = TransSpiProtocolMode_Mode_3)
    (hword : w.mode < 2 ^ 32)
    (hlatch : ∀ prev x, w.latch prev x = x)
    (hread : 0 ≤ w.oracle w.calls.length)
    (hwrite : 0 ≤ w.oracle (w.calls.length + 1))
    (hread2 : 0 ≤ w.oracle (w.calls.length + 2)) :
    (_TransSpi_set_protocol_mode spi_h protocol_mode w).status = TRANS_SPI_NO_ERROR ∧
    (_TransSpi_get_mode_word (_TransSpi_set_protocol_mode spi_h protocol_mode w).spi_h old
        (_TransSpi_set_protocol_mode spi_h protocol_mode w).world).status
      = TRANS_SPI_NO_ERROR ∧
    (((_TransSpi_get_mode_word (_TransSpi_set_protocol_mode spi_h protocol_mode w).spi_h old
        (_TransSpi_set_protocol_mode spi_h protocol_mode w).world).mode_word
        &&& SPI_MODE_X_MASK : Nat) : Int) = protocol_mode ∧
    (_TransSpi_get_mode_word (_TransSpi_set_protocol_mode spi_h protocol_mode w).spi_h old
        (_TransSpi_set_protocol_mode spi_h protocol_mode w).world).mode_word
        &&& not_u32 SPI_MODE_X_MASK
      = w.mode &&& not_u32 SPI_MODE_X_MASK ∧
    (∀ i, 2 ≤ i →
      (_TransSpi_get_mode_word (_TransSpi_set_protocol_mode spi_h protocol_mode w).spi_h old
        (_TransSpi_set_protocol_mode spi_h protocol_mode w).world).mode_word.testBit i
      = w.mode.testBit i) := by
  obtain ⟨hs, hh, hm, hc, ho⟩ := set_protocol_mode_success spi_h protocol_mode w hmode hread hwrite
  obtain ⟨hlt, hcast⟩ := toU32_of_enumerated protocol_mode hmode
  have hlen : (_TransSpi_set_protocol_mode spi_h protocol_mode w).world.calls.length
      = w.calls.length + 2 := by
    rw [hc]; simp
  have hr2 : ¬ w.oracle (w.calls.length + 2) < 0 := by omega
  have hget : (_TransSpi_get_mode_word (_TransSpi_set_protocol_mode spi_h protocol_mode w).spi_h
      old (_TransSpi_set_protocol_mode spi_h protocol_mode w).world).mode_word
      = ((w.mode &&& not_u32 SPI_MODE_X_MASK) % 2 ^ 32 ||| toU32 protocol_mode) % 2 ^ 32 := by
    simp only [_TransSpi_get_mode_word, syscall, rd_mode32_out, World.next_result, ho, hlen,
      hread2, hr2, if_true, if_false, hm, hlatch]
  have hgs : (_TransSpi_get_mode_word (_TransSpi_set_protocol_mode spi_h protocol_mode w).spi_h
      old (_TransSpi_set_protocol_mode spi_h protocol_mode w).world).status
      = TRANS_SPI_NO_ERROR := by
    simp only [_TransSpi_get_mode_word, syscall, World.next_result, ho, hlen, hr2, if_false]
  refine ⟨hs, hgs, ?_, ?_, ?_⟩
  · rw [hget, merge_low w.mode (toU32 protocol_mode) hlt, hcast]
  · rw [hget, merge_high w.mode (toU32 protocol_mode) hlt]
  · intro i hi
    rw [hget, merge_bits_above w.mode (toU32 protocol_mode) hword hlt i hi]

/-- Witness for C1: mode word 0xF4 (bits outside the sub-field set), Mode_3, every call
succeeding, a device that stores the written word verbatim. -/
theorem C1_protocol_mode_round_trip_witness :
    (_TransSpi_set_protocol_mode { fd_ := 3, bits_per_word_ := 8, speed_ := 4000000 }
        TransSpiProtocolMode_Mode_3
        { oracle := fun _ => 0, miso := fun _ _ => 0, latch := fun _ x => x, mode := 0xF4,
          mem := fun _ => 0, calls := [], diag := [] }).status = TRANS_SPI_NO_ERROR ∧
    (((_TransSpi_get_mode_word
        (_TransSpi_set_protocol_mode { fd_ := 3, bits_per_word_ := 8, speed_ := 4000000 }
          TransSpiProtocolMode_Mode_3
          { oracle := fun _ => 0, miso := fun _ _ => 0, latch := fun _ x => x, mode := 0xF4,
            mem := fun _ => 0, calls := [], diag := [] }).spi_h 0
        (_TransSpi_set_protocol_mode { fd_ := 3, bits_per_word_ := 8, speed_ := 4000000 }
          TransSpiProtocolMode_Mode_3
          { oracle := fun _ => 0, miso := fun _ _ => 0, latch := fun _ x => x, mode := 0xF4,
            mem := fun _ => 0, calls := [], diag := [] }).world).mode_word
        &&& SPI_MODE_X_MASK : Nat) : Int) = TransSpiProtocolMode_Mode_3 :=
  have h := C1_protocol_mode_round_trip { fd_ := 3, bits_per_word_ := 8, speed_ := 4000000 }
    TransSpiProtocolMode_Mode_3
    { oracle := fun _ => 0, miso := fun _ _ => 0, latch := fun _ x => x, mode := 0xF4,
      mem := fun _ => 0, calls := [], diag := [] } 0
    (Or.inr (Or.inr (Or.inr rfl))) (by decide) (fun _ _ => rfl) (by decide) (by decide)
    (by decide)
  ⟨h.1, h.2.2.1⟩

/-! ## Runs of the building blocks -/

/-- The run of `_TransSpi_set_bus_speed`: one speed write, at most one diagnostic
line. -/
theorem set_bus_speed_run (spi_h : TransSpi_t) (speed : Nat) (w : World) :
    (_TransSpi_set_bus_speed spi_h speed w).world.calls
      = w.calls ++ [.sys_ioctl spi_h.fd_ (.SPI_IOC_WR_MAX_SPEED_HZ speed)] ∧
    (_TransSpi_set_bus_speed spi_h speed w).world.diag
      = w.diag ++ (if w.next_result < 0 then [.bus_speed_failure] else []) := by
  simp only [_TransSpi_set_bus_speed, syscall, print]
  split <;> simp

/-- The run of `_TransSpi_set_bits_per_word`: one bits-per-word write, at most one
diagnostic line. -/
theorem set_bits_per_word_run (spi_h : TransSpi_t) (bits_per_word : Int) (w : World) :
    (_TransSpi_set_bits_per_word spi_h bits_per_word w).world.calls
      = w.calls ++ [.sys_ioctl spi_h.fd_ (.SPI_IOC_WR_BITS_PER_WORD (toU8 bits_per_word))] ∧
    (_TransSpi_set_bits_per_word spi_h bits_per_word w).world.diag
      = w.diag ++ (if w.next_result ≠ 0 then [.bits_per_word_failure] else []) := by
  simp only [_TransSpi_set_bits_per_word, syscall, print]
  split <;> simp

/-- The run of `_TransSpi_set_protocol_mode`: either the mode is rejected (no call, the
`invalid_protocol` line), or the register is read once and, when the read succeeds,
written once.  The connection is returned as it was. -/
theorem set_protocol_mode_run (spi_h : TransSpi_t) (protocol_mode : Int) (w : World) :
    (_TransSpi_set_protocol_mode spi_h protocol_mode w).spi_h = spi_h ∧
    ∃ mode_calls mode_diag,
      (_TransSpi_set_protocol_mode spi_h protocol_mode w).world.calls = w.calls ++ mode_calls ∧
      (_TransSpi_set_protocol_mode spi_h protocol_mode w).world.diag = w.diag ++ mode_diag ∧
      ((mode_calls = [] ∧ mode_diag = [.invalid_protocol]) ∨
       (mode_calls = [.sys_ioctl spi_h.fd_ .SPI_IOC_RD_MODE32] ∧
          mode_diag = [.get_mode_failure]) ∨
       (∃ x, mode_calls = [.sys_ioctl spi_h.fd_ .SPI_IOC_RD_MODE32,
            .sys_ioctl spi_h.fd_ (.SPI_IOC_WR_MODE32 x)] ∧
          (mode_diag = [] ∨ mode_diag = [.set_mode_failure]))) := by
  by_cases hv : protocol_mode ≠ TransSpiProtocolMode_Mode_0 ∧
      protocol_mode ≠ TransSpiProtocolMode_Mode_1 ∧
      protocol_mode ≠ TransSpiProtocolMode_Mode_2 ∧
      protocol_mode ≠ TransSpiProtocolMode_Mode_3
  · refine ⟨?_, [], [.invalid_protocol], ?_, ?_, Or.inl ⟨rfl, rfl⟩⟩ <;>
      simp [_TransSpi_set_protocol_mode, hv, TRANS_SPI_BAD_ARGUMENT_ERROR, TRANS_SPI_NO_ERROR,
        print]
  · by_cases hr : w.oracle w.calls.length < 0
    · refine ⟨?_, [.sys_ioctl spi_h.fd_ .SPI_IOC_RD_MODE32], [.get_mode_failure], ?_, ?_,
        Or.inr (Or.inl ⟨rfl, rfl⟩)⟩ <;>
        simp [_TransSpi_set_protocol_mode, _TransSpi_get_mode_word, syscall, hv, hr,
          World.next_result, TRANS_SPI_GET_MODE_ERROR, TRANS_SPI_NO_ERROR, print]
    · have hr0 : 0 ≤ w.oracle w.calls.length := by omega
      by_cases hw : w.oracle (w.calls.length + 1) < 0
      · have hw0 : ¬ 0 ≤ w.oracle (w.calls.length + 1) := by omega
        refine ⟨?_, [.sys_ioctl spi_h.fd_ .SPI_IOC_RD_MODE32,
            .sys_ioctl spi_h.fd_ (.SPI_IOC_WR_MODE32
              (((w.mode &&& not_u32 SPI_MODE_X_MASK) % 2 ^ 32 ||| toU32 protocol_mode) % 2 ^ 32))],
          [.set_mode_failure], ?_, ?_, Or.inr (Or.inr ⟨_, rfl, Or.inr rfl⟩)⟩ <;>
          simp [_TransSpi_set_protocol_mode, _TransSpi_get_mode_word, _TransSpi_set_mode_word,
            syscall, rd_mode32_out, World.next_result, hv, hr, hw, hr0, hw0, TRANS_SPI_NO_ERROR,
            print]
      · have hw0 : 0 ≤ w.oracle (w.calls.length + 1) := by omega
        refine ⟨?_, [.sys_ioctl spi_h.fd_ .SPI_IOC_RD_MODE32,
            .sys_ioctl spi_h.fd_ (.SPI_IOC_WR_MODE32
              (((w.mode &&& not_u32 SPI_MODE_X_MASK) % 2 ^ 32 ||| toU32 protocol_mode) % 2 ^ 32))],
          [], ?_, ?_, Or.inr (Or.inr ⟨_, rfl, Or.inl rfl⟩)⟩ <;>
          simp [_TransSpi_set_protocol_mode, _TransSpi_get_mode_word, _TransSpi_set_mode_word,
            syscall, rd_mode32_out, World.next_result, hv, hr, hw, hr0, hw0, TRANS_SPI_NO_ERROR,
            print]

/-- The run of `TransSpi_destroy`: exactly one close of the descriptor, at most one
diagnostic line, the connection returned as it was. -/
theorem destroy_run (spi_h : TransSpi_t) (w : World) :
    (TransSpi_destroy spi_h w).spi_h = spi_h ∧
    (TransSpi_destroy spi_h w).world.calls = w.calls ++ [.sys_close spi_h.fd_] ∧
    (TransSpi_destroy spi_h w).world.diag
      = w.diag ++ (if w.next_result ≠ 0 then [.close_failure] else []) := by
  simp only [TransSpi_destroy, syscall, print]
  split <;> simp

/-- After a successful open `TransSpi_create` is the three configuration steps run in
sequence on the opened connection, followed by the rollback when their aggregate
status is not NoError. -/
theorem create_after_open (spi_h : TransSpi_t) (config : TransSpiConfig_t) (w : World)
    (hopen : 0 ≤ (syscall (.sys_open config.device_name O_RDWR) w).1) :
    let fd := (syscall (.sys_open config.device_name O_RDWR) w).1
    let r1 := _TransSpi_set_bus_speed { spi_h with fd_ := fd } config.speed
      (syscall (.sys_open config.device_name O_RDWR) w).2
    let r2 := _TransSpi_set_bits_per_word r1.spi_h config.bits_per_word r1.world
    let r3 := _TransSpi_set_protocol_mode r2.spi_h config.protocol_mode r2.world
    let agg := Int.lor (Int.lor (Int.lor TRANS_SPI_NO_ERROR r1.status) r2.status) r3.status
    TransSpi_create spi_h config w =
      if agg ≠ TRANS_SPI_NO_ERROR then
        { status := TRANS_SPI_CONFIG_ERROR,
          spi_h := (TransSpi_destroy r3.spi_h
            (print (.configure_failure config.device_name) r3.world)).spi_h,
          world := (TransSpi_destroy r3.spi_h
            (print (.configure_failure config.device_name) r3.world)).world }
      else { status := agg, spi_h := r3.spi_h, world := r3.world } := by
  intro fd r1 r2 r3 agg
  have hnot : ¬ (syscall (.sys_open config.device_name O_RDWR) w).1 < 0 := by omega
  unfold TransSpi_create
  simp only [hnot, if_false, if_true]

/-- The aggregate of three status codes is zero exactly when the three of them are. -/
theorem aggregate_eq_zero (s1 s2 s3 : Int) :
    Int.lor (Int.lor (Int.lor TRANS_SPI_NO_ERROR s1) s2) s3 = 0 ↔ s1 = 0 ∧ s2 = 0 ∧ s3 = 0 := by
  rw [int_lor_eq_zero, int_lor_eq_zero, int_lor_eq_zero]
  simp [TRANS_SPI_NO_ERROR, and_assoc]

/-- The aggregate of three status codes is non-zero exactly when one of them is. -/
theorem aggregate_ne_zero (s1 s2 s3 : Int) :
    Int.lor (Int.lor (Int.lor TRANS_SPI_NO_ERROR s1) s2) s3 ≠ 0 ↔ (s1 ≠ 0 ∨ s2 ≠ 0 ∨ s3 ≠ 0) := by
  rw [Ne, aggregate_eq_zero]
  tauto

/-- The run of `TransSpi_create` after a successful open, in terms of the runs of the
three configuration steps `r1`, `r2`, `r3` on the opened connection. -/
theorem create_run (spi_h : TransSpi_t) (config : TransSpiConfig_t)
    (w : World) (hopen : 0 ≤ (syscall (.sys_open config.device_name O_RDWR) w).1) :
    let fd := (syscall (.sys_open config.device_name O_RDWR) w).1
    let r1 := _TransSpi_set_bus_speed { spi_h with fd_ := fd } config.speed
      (syscall (.sys_open config.device_name O_RDWR) w).2
    let r2 := _TransSpi_set_bits_per_word r1.spi_h config.bits_per_word r1.world
    let r3 := _TransSpi_set_protocol_mode r2.spi_h config.protocol_mode r2.world
    ∃ mode_calls closing new_diag,
      r3.world.calls = r2.world.calls ++ mode_calls ∧
      (TransSpi_create spi_h config w).world.calls = r3.world.calls ++ closing ∧
      (TransSpi_create spi_h config w).world.calls
        = w.calls ++ [.sys_open config.device_name O_RDWR,
            .sys_ioctl fd (.SPI_IOC_WR_MAX_SPEED_HZ config.speed),
            .sys_ioctl fd (.SPI_IOC_WR_BITS_PER_WORD (toU8 config.bits_per_word))]
          ++ mode_calls ++ closing ∧
      (TransSpi_create spi_h config w).world.diag = w.diag ++ new_diag ∧
      (mode_calls = [] ∨ mode_calls = [.sys_ioctl fd .SPI_IOC_RD_MODE32] ∨
        ∃ x, mode_calls = [.sys_ioctl fd .SPI_IOC_RD_MODE32,
          .sys_ioctl fd (.SPI_IOC_WR_MODE32 x)]) ∧
      mode_calls.countP Call.isModeRead + new_diag.count .invalid_protocol = 1 ∧
      closing = (if r1.status ≠ 0 ∨ r2.status ≠ 0 ∨ r3.status ≠ 0 then [.sys_close fd] else []) ∧
      (TransSpi_create spi_h config w).status
        = (if r1.status ≠ 0 ∨ r2.status ≠ 0 ∨ r3.status ≠ 0 then TRANS_SPI_CONFIG_ERROR
           else TRANS_SPI_NO_ERROR) ∧
      (TransSpi_create spi_h config w).spi_h.speed_ = config.speed ∧
      (TransSpi_create spi_h config w).spi_h.bits_per_word_ = config.bits_per_word := by
  intro fd r1 r2 r3
  have hcreate : TransSpi_create spi_h config w =
      if Int.lor (Int.lor (Int.lor TRANS_SPI_NO_ERROR r1.status) r2.status) r3.status
          ≠ TRANS_SPI_NO_ERROR then
        { status := TRANS_SPI_CONFIG_ERROR,
          spi_h := (TransSpi_destroy r3.spi_h
            (print (.configure_failure config.device_name) r3.world)).spi_h,
          world := (TransSpi_destroy r3.spi_h
            (print (.configure_failure config.device_name) r3.world)).world }
      else { status := Int.lor (Int.lor (Int.lor TRANS_SPI_NO_ERROR r1.status) r2.status)
               r3.status,
             spi_h := r3.spi_h, world := r3.world } :=
    create_after_open spi_h config w hopen
  have hiff := aggregate_ne_zero r1.status r2.status r3.status
  have hw0 : (syscall (.sys_open config.device_name O_RDWR) w).2.calls
      = w.calls ++ [.sys_open config.device_name O_RDWR] := rfl
  have hd0 : (syscall (.sys_open config.device_name O_RDWR) w).2.diag = w.diag := rfl
  obtain ⟨hc1, hd1⟩ := set_bus_speed_run { spi_h with fd_ := fd } config.speed
    (syscall (.sys_open config.device_name O_RDWR) w).2
  obtain ⟨hc2, hd2⟩ := set_bits_per_word_run r1.spi_h config.bits_per_word r1.world
  obtain ⟨hh3, mc, md, hc3, hd3, hshape⟩ :=
    set_protocol_mode_run r2.spi_h config.protocol_mode r2.world
  have hfd2 : r2.spi_h.fd_ = fd := rfl
  have hsp2 : r2.spi_h.speed_ = config.speed := rfl
  have hbw2 : r2.spi_h.bits_per_word_ = config.bits_per_word := rfl
  have hfd1 : r1.spi_h.fd_ = fd := rfl
  rw [hfd2] at hshape
  change r1.world.calls = _ at hc1
  change r1.world.diag = _ at hd1
  change r2.world.calls = _ at hc2
  change r2.world.diag = _ at hd2
  change r3.spi_h = _ at hh3
  change r3.world.calls = _ at hc3
  change r3.world.diag = _ at hd3
  rw [hw0] at hc1
  rw [hd0] at hd1
  simp only [hfd1] at hc2
  clear_value r1 r2 r3 fd
  have hcount : mc.countP Call.isModeRead + md.count .invalid_protocol = 1 := by
    rcases hshape with ⟨h1, h2⟩ | ⟨h1, h2⟩ | ⟨x, h1, h2 | h2⟩ <;> subst h1 <;> subst h2 <;>
      simp [Call.isModeRead]
  have hmc : mc = [] ∨ mc = [.sys_ioctl fd .SPI_IOC_RD_MODE32] ∨
      ∃ x, mc = [.sys_ioctl fd .SPI_IOC_RD_MODE32, .sys_ioctl fd (.SPI_IOC_WR_MODE32 x)] := by
    rcases hshape with ⟨h1, _⟩ | ⟨h1, _⟩ | ⟨x, h1, _⟩
    · exact Or.inl h1
    · exact Or.inr (Or.inl h1)
    · exact Or.inr (Or.inr ⟨x, h1⟩)
  obtain ⟨d1, hd1, hn1⟩ : ∃ d1, r1.world.diag = w.diag ++ d1 ∧
      d1.count .invalid_protocol = 0 := ⟨_, hd1, by split <;> simp⟩
  obtain ⟨d2, hd2, hn2⟩ : ∃ d2, r2.world.diag = r1.world.diag ++ d2 ∧
      d2.count .invalid_protocol = 0 := ⟨_, hd2, by split <;> simp⟩
  by_cases hfail : Int.lor (Int.lor (Int.lor TRANS_SPI_NO_ERROR r1.status) r2.status) r3.status
      ≠ TRANS_SPI_NO_ERROR
  · rw [if_pos hfail] at hcreate
    have hany : r1.status ≠ 0 ∨ r2.status ≠ 0 ∨ r3.status ≠ 0 := hiff.mp hfail
    obtain ⟨hdh, hdc, hdd⟩ := destroy_run r3.spi_h
      (print (.configure_failure config.device_name) r3.world)
    obtain ⟨dd, hdd, hnd⟩ : ∃ dd, (TransSpi_destroy r3.spi_h
        (print (.configure_failure config.device_name) r3.world)).world.diag
          = (print (.configure_failure config.device_name) r3.world).diag ++ dd ∧
        dd.count .invalid_protocol = 0 := ⟨_, hdd, by split <;> simp⟩
    refine ⟨mc, [.sys_close fd],
      d1 ++ d2 ++ md ++ [.configure_failure config.device_name] ++ dd,
      hc3, ?_, ?_, ?_, hmc, ?_, ?_, ?_, ?_, ?_⟩
    · rw [hcreate]
      simp only []
      rw [hdc]
      simp only [print, hh3, hfd2]
    · rw [hcreate]
      simp only []
      rw [hdc]
      simp only [print, hc3, hc2, hc1, hh3, hfd2]
      simp
    · rw [hcreate]
      simp only []
      rw [hdd]
      simp only [print, hd3, hd2, hd1, List.append_assoc]
    · simp only [List.count_append, hn1, hn2, hnd]
      simpa using hcount
    · rw [if_pos hany]
    · rw [hcreate, if_pos hany]
    · rw [hcreate]
      simp only []
      rw [hdh, hh3, hsp2]
    · rw [hcreate]
      simp only []
      rw [hdh, hh3, hbw2]
  · rw [if_neg hfail] at hcreate
    have hzero : Int.lor (Int.lor (Int.lor TRANS_SPI_NO_ERROR r1.status) r2.status) r3.status
        = 0 := by
      simpa [TRANS_SPI_NO_ERROR] using hfail
    have hnone : ¬ (r1.status ≠ 0 ∨ r2.status ≠ 0 ∨ r3.status ≠ 0) :=
      fun h => absurd hzero (hiff.mpr h)
    refine ⟨mc, [], d1 ++ d2 ++ md, hc3, ?_, ?_, ?_, hmc, ?_, ?_, ?_, ?_, ?_⟩
    · rw [hcreate]
      simp
    · rw [hcreate]
      simp only [hc3, hc2, hc1]
      simp
    · rw [hcreate]
      simp only [hd3, hd2, hd1, List.append_assoc]
    · simp only [List.count_append, hn1, hn2]
      simpa using hcount
    · rw [if_neg hnone]
    · rw [hcreate, if_neg hnone]
      simp only [hzero]
      rfl
    · rw [hcreate]; simp only [hh3, hsp2]
    · rw [hcreate]; simp only [hh3, hbw2]

/-! ## The configuration sequence (C3) -/

/-- C3: once the open has succeeded, `TransSpi_create` issues, after the open, exactly
one speed write, then exactly one bits-per-word write, then the device accesses of one
run of `_TransSpi_set_protocol_mode`, then at most the closing call, whatever the
outcomes of the steps; the connection caches the requested speed and word width; the
protocol-mode step leaves exactly one trace of its run (one register read, or the
`invalid_protocol` diagnostic); and the bitwise-OR aggregate of the three status codes
is non-zero if and only if at least one of them is, which is also when the call
returns a non-zero status. -/
theorem C3_configuration_steps_all_run (spi_h : TransSpi_t) (config : TransSpiConfig_t)
    (w : World) (hopen : 0 ≤ (syscall (.sys_open config.device_name O_RDWR) w).1) :
    let fd := (syscall (.sys_open config.device_name O_RDWR) w).1
    let r1 := _TransSpi_set_bus_speed { spi_h with fd_ := fd } config.speed
      (syscall (.sys_open config.device_name O_RDWR) w).2
    let r2 := _TransSpi_set_bits_per_word r1.spi_h config.bits_per_word r1.world
    let r3 := _TransSpi_set_protocol_mode r2.spi_h config.protocol_mode r2.world
    (∃ mode_calls closing new_diag,
      r3.world.calls = r2.world.calls ++ mode_calls ∧
      (TransSpi_create spi_h config w).world.calls
        = w.calls ++ [.sys_open config.device_name O_RDWR,
            .sys_ioctl fd (.SPI_IOC_WR_MAX_SPEED_HZ config.speed),
            .sys_ioctl fd (.SPI_IOC_WR_BITS_PER_WORD (toU8 config.bits_per_word))]
          ++ mode_calls ++ closing ∧
      (TransSpi_create spi_h config w).world.diag = w.diag ++ new_diag ∧
      (mode_calls = [] ∨ mode_calls = [.sys_ioctl fd .SPI_IOC_RD_MODE32] ∨
        ∃ x, mode_calls = [.sys_ioctl fd .SPI_IOC_RD_MODE32,
          .sys_ioctl fd (.SPI_IOC_WR_MODE32 x)]) ∧
      (closing = [] ∨ closing = [.sys_close fd]) ∧
      mode_calls.countP Call.isModeRead + new_diag.count .invalid_protocol = 1) ∧
    (TransSpi_create spi_h config w).spi_h.speed_ = config.speed ∧
    (TransSpi_create spi_h config w).spi_h.bits_per_word_ = config.bits_per_word ∧
    (Int.lor (Int.lor (Int.lor TRANS_SPI_NO_ERROR r1.status) r2.status) r3.status ≠ 0
      ↔ (r1.status ≠ 0 ∨ r2.status ≠ 0 ∨ r3.status ≠ 0)) ∧
    ((TransSpi_create spi_h config w).status ≠ 0
      ↔ (r1.status ≠ 0 ∨ r2.status ≠ 0 ∨ r3.status ≠ 0)) := by
  intro fd r1 r2 r3
  obtain ⟨mc, cl, nd, h3, _, hcalls, hdiag, hmc, hcount, hcl, hst, hsp, hbw⟩ :=
    create_run spi_h config w hopen
  refine ⟨⟨mc, cl, nd, h3, hcalls, hdiag, hmc, ?_, hcount⟩, hsp, hbw,
    aggregate_ne_zero r1.status r2.status r3.status, ?_⟩
  · rw [hcl]
    split
    · exact Or.inr rfl
    · exact Or.inl rfl
  · rw [hst]
    split
    · rename_i h
      exact ⟨fun _ => h, fun _ => by decide⟩
    · rename_i h
      exact ⟨fun hne => absurd rfl hne, fun hany => absurd hany h⟩

/-- Witness for C3: the open reports descriptor 3, the speed write fails, the other
calls succeed; the later steps still ran (the word width is cached). -/
theorem C3_configuration_steps_all_run_witness :
    0 ≤ (syscall (.sys_open "/dev/spidev0.0" O_RDWR)
      (World.boot fun n => if n = 0 then 3 else if n = 1 then -1 else 0)).1 ∧
    (TransSpi_create { fd_ := 0, bits_per_word_ := 0, speed_ := 0 }
        { device_name := "/dev/spidev0.0", protocol_mode := 0, bits_per_word := 8,
          speed := 4000000 }
        (World.boot fun n => if n = 0 then 3 else if n = 1 then -1 else 0)).spi_h.bits_per_word_
      = 8 :=
  ⟨by decide,
   (C3_configuration_steps_all_run { fd_ := 0, bits_per_word_ := 0, speed_ := 0 }
      { device_name := "/dev/spidev0.0", protocol_mode := 0, bits_per_word := 8,
        speed := 4000000 }
      (World.boot fun n => if n = 0 then 3 else if n = 1 then -1 else 0) (by decide)).2.2.1⟩

/-! ## Rollback on configuration failure (C4) -/

/-- C4: after a successful open, when at least one configuration step returns a
non-zero status (whichever step and whichever code), `TransSpi_create` closes the
descriptor exactly once, as its last system call, and returns Config, in every world
(so whether the close succeeds or fails); when the three steps return NoError it
issues no close and returns NoError. -/
theorem C4_rollback_on_configuration_failure (spi_h : TransSpi_t) (config : TransSpiConfig_t)
    (w : World) (hopen : 0 ≤ (syscall (.sys_open config.device_name O_RDWR) w).1) :
    let fd := (syscall (.sys_open config.device_name O_RDWR) w).1
    let r1 := _TransSpi_set_bus_speed { spi_h with fd_ := fd } config.speed
      (syscall (.sys_open config.device_name O_RDWR) w).2
    let r2 := _TransSpi_set_bits_per_word r1.spi_h config.bits_per_word r1.world
    let r3 := _TransSpi_set_protocol_mode r2.spi_h config.protocol_mode r2.world
    ((r1.status ≠ 0 ∨ r2.status ≠ 0 ∨ r3.status ≠ 0) →
      (TransSpi_create spi_h config w).status = TRANS_SPI_CONFIG_ERROR ∧
      (TransSpi_create spi_h config w).world.calls = r3.world.calls ++ [.sys_close fd] ∧
      ((TransSpi_create spi_h config w).world.calls.drop w.calls.length).countP Call.isClose
        = 1) ∧
    ((r1.status = 0 ∧ r2.status = 0 ∧ r3.status = 0) →
      (TransSpi_create spi_h config w).status = TRANS_SPI_NO_ERROR ∧
      (TransSpi_create spi_h config w).world.calls = r3.world.calls ∧
      ((TransSpi_create spi_h config w).world.calls.drop w.calls.length).countP Call.isClose
        = 0) := by
  intro fd r1 r2 r3
  obtain ⟨mc, cl, nd, h3, hlast, hcalls, hdiag, hmc, hcount, hcl, hst, hsp, hbw⟩ :=
    create_run spi_h config w hopen
  have hmcc : mc.countP Call.isClose = 0 := by
    rcases hmc with h | h | ⟨x, h⟩ <;> subst h <;> simp [Call.isClose]
  have hdrop : (TransSpi_create spi_h config w).world.calls.drop w.calls.length
      = [.sys_open config.device_name O_RDWR,
            .sys_ioctl fd (.SPI_IOC_WR_MAX_SPEED_HZ config.speed),
            .sys_ioctl fd (.SPI_IOC_WR_BITS_PER_WORD (toU8 config.bits_per_word))]
          ++ mc ++ cl := by
    rw [hcalls, List.append_assoc, List.append_assoc, List.drop_left]
    simp
  constructor
  · intro hany
    rw [if_pos hany] at hcl hst
    refine ⟨hst, ?_, ?_⟩
    · rw [hlast, hcl]
    · rw [hdrop, hcl]
      simp [List.countP_append, hmcc, Call.isClose]
  · intro hnone
    have hno : ¬ (r1.status ≠ 0 ∨ r2.status ≠ 0 ∨ r3.status ≠ 0) := by
      rintro (h | h | h)
      · exact h hnone.1
      · exact h hnone.2.1
      · exact h hnone.2.2
    rw [if_neg hno] at hcl hst
    refine ⟨hst, ?_, ?_⟩
    · rw [hlast, hcl, List.append_nil]
    · rw [hdrop, hcl]
      simp [List.countP_append, hmcc, Call.isClose]

/-- Witness for C4: the open reports descriptor 3, the speed write fails, the other
calls succeed: the call returns Config. -/
theorem C4_rollback_on_configuration_failure_witness :
    0 ≤ (syscall (.sys_open "/dev/spidev0.0" O_RDWR)
      (World.boot fun n => if n = 0 then 3 else if n = 1 then -1 else 0)).1 ∧
    (TransSpi_create { fd_ := 0, bits_per_word_ := 0, speed_ := 0 }
        { device_name := "/dev/spidev0.0", protocol_mode := 0, bits_per_word := 8,
          speed := 4000000 }
        (World.boot fun n => if n = 0 then 3 else if n = 1 then -1 else 0)).status
      = TRANS_SPI_CONFIG_ERROR :=
  ⟨by decide,
   ((C4_rollback_on_configuration_failure { fd_ := 0, bits_per_word_ := 0, speed_ := 0 }
      { device_name := "/dev/spidev0.0", protocol_mode := 0, bits_per_word := 8,
        speed := 4000000 }
      (World.boot fun n => if n = 0 then 3 else if n = 1 then -1 else 0) (by decide)).1
      (Or.inl (by decide))).1⟩

end TransSpi
